import Mathlib

/-!
Shallow embedding of the RadeonProRender Blender add-on core
(`src/rprblender/engine/engine.py`, `src/rprblender/engine/export_engine.py`,
`src/bindings/pyrpr/src/pyrpr_load_store.py`) and proofs of the spec claims.

Frames and matrix entries are modelled over `ℚ`; the opaque `mathutils`
matrix/quaternion numerics are abstracted as an operations record, keeping
the control flow of the Python source exact.
-/

namespace RPRB

/-! ## Group naming (`ExportEngineAnimated.get_group_names`) -/

/-- A Blender object as seen by `get_group_names`: a name and an optional
parent object (`obj.parent`). -/
inductive BObj where
  | mk (name : String) (parent : Option BObj)

def BObj.name : BObj → String
  | .mk n _ => n

def BObj.parent : BObj → Option BObj
  | .mk _ p => p

/-- Embedding of `ExportEngineAnimated.get_group_names` (export_engine.py
lines 279-290): returns `(group_name, parent_group_name)`. -/
def get_group_names (obj : BObj) : String × String :=
  match obj.parent with
  | none => ("Root." ++ obj.name, "Root")
  | some p =>
    match p.parent with
    | some gp => (p.name ++ "." ++ obj.name, gp.name ++ "." ++ p.name)
    | none => (p.name ++ "." ++ obj.name, "Root." ++ p.name)

/-! ## Animation packing (`pyrpr_load_store.Animation.__init__`) -/

/-- The `MOVEMENT_CONSTANTS` dict of pyrpr_load_store.py: category name to
movement-type id; a lookup of any other key raises `KeyError`. -/
def MOVEMENT_CONSTANTS : String → Option Nat
  | "translation" => some 1
  | "rotation" => some 2
  | "scale" => some 3
  | _ => none

/-- The `DATA_SIZE` dict of pyrpr_load_store.py: number of floats per value. -/
def DATA_SIZE : String → Option Nat
  | "translation" => some 3
  | "rotation" => some 4
  | "scale" => some 3
  | _ => none

/-- Value of `ffi.sizeof("rprs_animation")` on the 64-bit layout declared in
rpr_load_store.py. -/
def rprsAnimationSizeof : Nat := 48

/-- The packed `rprs_animation` struct written by `Animation.__init__`
(fields set on `self.packed_data`). -/
structure PackedAnim where
  structSize : Nat
  groupName : String
  movementType : Nat
  interpolationType : Nat
  nbTimeKeys : Nat
  nbTransformValues : Nat
  timeKeys : List ℚ
  transformValues : List ℚ
deriving DecidableEq

/-- Ways `Animation.__init__` can raise before producing a packed struct. -/
inductive AnimErr where
  /-- the `assert time_keys_number == transform_keys_number` fails -/
  | countMismatch
  /-- the lookup `DATA_SIZE[...]` / `MOVEMENT_CONSTANTS[...]` raises `KeyError` -/
  | keyError
  /-- the call `np.ascontiguousarray(...).reshape(values_bytes_number)` fails -/
  | reshapeError
deriving DecidableEq

/-- Embedding of `Animation.__init__(group_name, category, keys, data)`
(pyrpr_load_store.py lines 132-170).  `fps` is
`bpy.context.scene.render.fps`; `data` is the list of per-key value tuples.
The assert on key/value counts runs before any packing; the category
lookups and the flattening reshape run after it. -/
def animationInit (fps : ℚ) (group_name : String) (category : String)
    (keys : List ℚ) (data : List (List ℚ)) : Except AnimErr PackedAnim :=
  let time_keys_number := keys.length
  let transform_keys_number := data.length
  if time_keys_number ≠ transform_keys_number then
    .error .countMismatch
  else
    match DATA_SIZE category, MOVEMENT_CONSTANTS category with
    | some dsize, some mtype =>
      let values_bytes_number := transform_keys_number * dsize
      if (data.map List.length).sum ≠ values_bytes_number then
        .error .reshapeError
      else
        .ok { structSize := rprsAnimationSizeof
              groupName := group_name
              movementType := mtype
              interpolationType := 0
              nbTimeKeys := time_keys_number
              nbTransformValues := time_keys_number
              timeKeys := keys.map (fun frame => frame / fps)
              transformValues := data.flatten }
    | _, _ => .error .keyError

/-! ## Image-filter state machine (`Engine.setup_image_filter`) -/

/-- The `settings` dict handed to `setup_image_filter`: the fields every
filter spec carries, plus the remaining type-specific numeric entries
(`color_sigma`, `radius`, `samples`, ...) as a key/value list.  Python
compares the whole dict structurally (`self.image_filter.settings ==
settings`). -/
structure FilterSettings where
  enable : Bool
  filter_type : String
  resolution : Int × Int
  numeric : List (String × ℚ)
deriving DecidableEq

/-- A live image-filter instance.  `iid` is the Python object identity
(fresh at each `_enable_image_filter`); `settings` is the stored
`self.image_filter.settings`.  `_update_image_filter` overwrites `settings`
(and the sigmas/params derived from it) on the same instance. -/
structure FilterHandle where
  iid : Nat
  settings : FilterSettings
deriving DecidableEq

/-- The filter-related engine state: `self.image_filter` and a counter
supplying fresh instance identities. -/
structure FilterState where
  image_filter : Option FilterHandle
  nextId : Nat
deriving DecidableEq

/-- Every live instance identity was allocated below `nextId`. -/
def FilterState.WF (e : FilterState) : Prop :=
  ∀ f, e.image_filter = some f → f.iid < e.nextId

/-- Embedding of `_enable_image_filter(settings)` (engine.py lines 252-325): constructs a
fresh filter instance and stores `settings` on it. -/
def enable_image_filter (e : FilterState) (settings : FilterSettings) : FilterState :=
  { image_filter := some ⟨e.nextId, settings⟩, nextId := e.nextId + 1 }

/-- Embedding of `_disable_image_filter` (engine.py lines 327-328). -/
def disable_image_filter (e : FilterState) : FilterState :=
  { e with image_filter := none }

/-- Embedding of `_update_image_filter(settings)` (engine.py lines 330-349): stores the
new settings (and the sigmas/params derived from them) on the existing
instance, keeping its identity. -/
def update_image_filter (e : FilterState) (f : FilterHandle)
    (settings : FilterSettings) : FilterState :=
  { e with image_filter := some { f with settings := settings } }

/-- Embedding of `Engine.setup_image_filter(settings)` (engine.py lines
229-250).  Returns the new state and the bool the Python function
returns. -/
def setup_image_filter (e : FilterState) (settings : FilterSettings) :
    FilterState × Bool :=
  match e.image_filter with
  | some f =>
    if f.settings = settings then (e, false)
    else if settings.enable then
      if f.settings.resolution = settings.resolution ∧
          f.settings.filter_type = settings.filter_type ∧
          f.settings.filter_type ≠ "ML" then
        (update_image_filter e f settings, true)
      else
        (enable_image_filter (disable_image_filter e) settings, true)
    else (disable_image_filter e, true)
  | none =>
    if settings.enable then (enable_image_filter e settings, true)
    else (e, true)

/-! ## Combined-channel composition (`Engine._set_render_result`) -/

/-- A dense float image: pixel coordinates and channel index to value. -/
def Image : Type := Nat → Nat → Nat → ℚ

/-- The raw render buffers `_set_render_result` reads:
`rpr_context.get_image()` (no argument) and the `AOV_COLOR` / `AOV_OPACITY`
buffers used by `update_background_filter_inputs` defaults. -/
structure RenderBuffers where
  raw : Image
  colorAov : Image
  opacityAov : Image

/-- The `Combined` branch of `_set_render_result` (engine.py lines 79-97).
`apply_image_filter` is the flag argument; `image_filter_data` is
`self.image_filter.get_data()` when a denoise filter exists (`none` models
`self.image_filter is None`); `background_filter` is the background
composite as a function of its `color` and `opacity` inputs (`none` models
`self.background_filter is None`). -/
def combined_render_result (bufs : RenderBuffers) (apply_image_filter : Bool)
    (image_filter_data : Option Image)
    (background_filter : Option (Image → Image → Image)) : Image :=
  match apply_image_filter, image_filter_data with
  | true, some image =>
    match background_filter with
    | some bg => bg image bufs.opacityAov
    | none =>
      -- copying alpha component from rendered image to final denoised image
      fun x y c => if c = 3 then bufs.raw x y 3 else image x y c
  | _, _ =>
    match background_filter with
    | some bg => bg bufs.colorAov bufs.opacityAov
    | none => bufs.raw

/-! ## Keyframe collection (`ExportEngineAnimated.collect_keyframes`) -/

/-- One animation curve: the times `key.co[0]` of its keyframe points. -/
structure FCurve where
  keyframe_points : List ℚ

/-- The action `blender_object.animation_data.action`: the curves of the action. -/
structure BAction where
  fcurves : List FCurve

/-- The record `blender_object.animation_data`; `action` may be `None`. -/
structure BAnimData where
  action : Option BAction

/-- A scene object as `collect_keyframes` sees it: name plus optional
animation data. -/
structure SceneObj where
  name : String
  animation_data : Option BAnimData

/-- The scene fields `collect_keyframes` reads. -/
structure KFScene where
  frame_start : ℚ
  frame_end : ℚ
  objects : List SceneObj

/-- Embedding of `min(end_frame, max(start_frame, key.co[0]))` (export_engine.py line
237). -/
def clamp_key_time (start_frame end_frame t : ℚ) : ℚ :=
  min end_frame (max start_frame t)

/-- Insert into a strictly-sorted list, dropping duplicates: the effect of
adding one element to a Python `set` as observed through
`tuple(sorted(...))`. -/
def insertSorted (x : ℚ) : List ℚ → List ℚ
  | [] => [x]
  | y :: ys =>
    if x < y then x :: y :: ys
    else if x = y then y :: ys
    else y :: insertSorted x ys

/-- Embedding of `tuple(sorted(obj_keyframes))` where `obj_keyframes` is the `set` the
loop accumulated. -/
def sortedDedup (l : List ℚ) : List ℚ :=
  l.foldl (fun acc t => insertSorted t acc) []

/-- The clamped key times one object contributes, in loop order
(export_engine.py lines 233-238). -/
def object_key_times (start_frame end_frame : ℚ) (action : BAction) : List ℚ :=
  (action.fcurves.map (fun curve =>
    curve.keyframe_points.map (clamp_key_time start_frame end_frame))).flatten

/-- Embedding of `ExportEngineAnimated.collect_keyframes(scene)`
(export_engine.py lines 213-245): an association list from object name to
its sorted, deduplicated, clamped keyframe times; objects without
animation data or without an action are skipped. -/
def collect_keyframes (scene : KFScene) : List (String × List ℚ) :=
  scene.objects.filterMap (fun obj =>
    match obj.animation_data with
    | none => none
    | some ad =>
      match ad.action with
      | none => none
      | some action =>
        some (obj.name,
          sortedDedup (object_key_times scene.frame_start scene.frame_end action)))

/-! ## Animation-data collection and frame restoration
(`ExportEngineAnimated.collect_animation_data_by_keyframes` and the
`try/finally` around it in `ExportEngineAnimated.sync`) -/

/-- A trace of the arguments of the `scene.frame_set` calls an operation
performed, with `none` when it returned normally and `some ()` when it
raised. -/
structure FrameTrace where
  frame_sets : List ℚ
  raised : Bool
deriving DecidableEq

/-- The globally-visible current frame after a trace of `frame_set` calls,
starting from `init`. -/
def final_frame (init : ℚ) (t : FrameTrace) : ℚ :=
  t.frame_sets.getLast?.getD init

/-- The `frame_set` calls of the inner loop of
`collect_animation_data_by_keyframes` for one object: one call per
keyframe, each of which may raise (the sampling
`depsgraph.objects[name]` lookup or matrix decomposition), then — only
when none raised — the per-object restore
`context.scene.frame_set(current_frame)` (export_engine.py lines 255-267).
`fails name frame` injects a failure while sampling `name` at `frame`. -/
def collect_anim_object_frames (fails : String → ℚ → Bool)
    (current_frame : ℚ) (name : String) : List ℚ → FrameTrace
  | [] => ⟨[current_frame], false⟩
  | frame :: rest =>
    if fails name frame then ⟨[frame], true⟩
    else
      let t := collect_anim_object_frames fails current_frame name rest
      ⟨frame :: t.frame_sets, t.raised⟩

/-- The `frame_set` trace of
`collect_animation_data_by_keyframes(context, keyframes)`
(export_engine.py lines 247-269): iterate the per-object traces, stopping
at the first raise; the function body itself has no `try/finally`. -/
def collect_animation_data_frames (fails : String → ℚ → Bool)
    (current_frame : ℚ) : List (String × List ℚ) → FrameTrace
  | [] => ⟨[], false⟩
  | (name, ks) :: rest =>
    let t := collect_anim_object_frames fails current_frame name ks
    if t.raised then t
    else
      let t2 := collect_animation_data_frames fails current_frame rest
      ⟨t.frame_sets ++ t2.frame_sets, t2.raised⟩

/-- The `try: ... collect_animation_data_by_keyframes ... finally:
scene.frame_set(orig_frame)` block of `ExportEngineAnimated.sync`
(export_engine.py lines 159-166): the `finally` appends its `frame_set`
unconditionally, and the exception (when any) still propagates. -/
def sync_collect_animation (fails : String → ℚ → Bool) (orig_frame : ℚ)
    (keyframes : List (String × List ℚ)) : FrameTrace :=
  let t := collect_animation_data_frames fails orig_frame keyframes
  ⟨t.frame_sets ++ [orig_frame], t.raised⟩

/-! ## Motion blur (`Engine.sync_motion_blur`)

Matrices are an abstract type `M`; the `mathutils` numerics the source
calls on them are collected in `MathOps`.  The vector results that reach
renderer calls are concrete rational triples. -/

/-- A 3-component vector as unpacked by `*vec` argument splats. -/
abbrev V3 : Type := ℚ × ℚ × ℚ

/-- A `mathutils.Quaternion` as consumed by `set_motion_blur`: its derived
`axis` and `angle` properties. -/
structure MQuat where
  axis : V3
  angle : ℚ

/-- The `mathutils` operations `set_motion_blur` applies to matrices of
abstract type `M`, plus the `Vector.length` property used on the
quaternion axis. -/
structure MathOps (M : Type) where
  matSub : M → M → M
  toTranslation : M → V3
  matMul : M → M → M
  inverted : M → M
  toQuaternion : M → MQuat
  toScale : M → V3
  vecLength : V3 → ℚ

/-- The renderer-object variants `sync_motion_blur` distinguishes via
`isinstance`. -/
inductive RprVariant where
  | shape
  | areaLight
  | camera
  | otherLight
  | other
deriving DecidableEq

/-- A renderer-side object from `rpr_context.objects`:
its `isinstance` variant and whether `hasattr(rpr_object,
'set_motion_transform')` holds. -/
structure RprObject (M : Type) where
  variant : RprVariant
  has_motion_transform : Bool

/-- Test `isinstance(rpr_object, (pyrpr.Shape, pyrpr.AreaLight, pyrpr.Camera))`. -/
def RprVariant.isShapeAreaLightCamera : RprVariant → Bool
  | .shape | .areaLight | .camera => true
  | _ => false

/-- Test `isinstance(rpr_object, (pyrpr.Shape, pyrpr.AreaLight))`. -/
def RprVariant.isShapeAreaLight : RprVariant → Bool
  | .shape | .areaLight => true
  | _ => false

/-- The renderer motion calls `set_motion_blur` issues, with their
arguments. -/
inductive MotionCmd (M : Type) where
  | motionTransform (m : M)
  | linearMotion (v : V3)
  | angularMotion (x y z w : ℚ)
  | scaleMotion (v : V3)

/-- Embedding of the inner `set_motion_blur(rpr_object, prev_matrix,
cur_matrix)` of `Engine.sync_motion_blur` (engine.py lines 148-166),
as the list of renderer calls it makes in order. -/
def set_motion_blur {M : Type} (ops : MathOps M) (rpr_object : RprObject M)
    (prev_matrix cur_matrix : M) : List (MotionCmd M) :=
  if rpr_object.has_motion_transform then
    [.motionTransform prev_matrix]
  else
    let velocity := ops.toTranslation (ops.matSub prev_matrix cur_matrix)
    let mul_diff := ops.matMul prev_matrix (ops.inverted cur_matrix)
    let quaternion := ops.toQuaternion mul_diff
    let angular : MotionCmd M :=
      if ops.vecLength quaternion.axis > 1/2 then
        .angularMotion quaternion.axis.1 quaternion.axis.2.1 quaternion.axis.2.2
          quaternion.angle
      else
        .angularMotion 1 0 0 0
    let scalePart : List (MotionCmd M) :=
      if rpr_object.variant = .camera then []
      else
        [.scaleMotion (let s := ops.toScale mul_diff; (s.1 - 1, s.2.1 - 1, s.2.2 - 1))]
    .linearMotion velocity :: angular :: scalePart

/-- The first `set_angular_motion` call of a command list, as its argument
quadruple. -/
def angular_setting {M : Type} : List (MotionCmd M) → Option (ℚ × ℚ × ℚ × ℚ)
  | [] => none
  | .angularMotion x y z w :: _ => some (x, y, z, w)
  | _ :: rest => angular_setting rest

/-- The tuple `ITERATED_OBJECT_TYPES` (engine.py line 39). -/
def ITERATED_OBJECT_TYPES : List String :=
  ["MESH", "LIGHT", "CURVE", "FONT", "SURFACE", "META", "VOLUME"]

/-- An evaluated depsgraph object as `sync_motion_blur` reads it: key,
`obj.type`, `obj.rpr.motion_blur`, and its `matrix_world` as evaluated at
the current frame and as re-evaluated after the rewind to the previous
frame. -/
structure DepsObj (M : Type) where
  key : String
  objType : String
  motion_blur : Bool
  matrix_world_cur : M
  matrix_world_prev : M

/-- An evaluated depsgraph instance: key, `instance.object.type`,
`inst.parent.rpr.motion_blur`, and its two `matrix_world` evaluations. -/
structure DepsInst (M : Type) where
  key : String
  objType : String
  parent_motion_blur : Bool
  matrix_world_cur : M
  matrix_world_prev : M

/-- The depsgraph fields `sync_motion_blur` reads. -/
structure Depsgraph (M : Type) where
  objects : List (DepsObj M)
  instances : List (DepsInst M)
  frame_current : ℚ

/-- Embedding of `depsgraph_objects(depsgraph, with_camera=True)` (engine.py lines
128-135). -/
def depsgraph_objects {M : Type} (dg : Depsgraph M) : List (DepsObj M) :=
  dg.objects.filter
    (fun o => o.objType ∈ ITERATED_OBJECT_TYPES ∨ o.objType = "CAMERA")

/-- Embedding of `depsgraph_instances(depsgraph)` (engine.py lines 137-144), restricted
to the fields read (`is_instance` filtering is inherent in membership of
`dg.instances`). -/
def depsgraph_instances {M : Type} (dg : Depsgraph M) : List (DepsInst M) :=
  dg.instances.filter (fun i => i.objType ∈ ITERATED_OBJECT_TYPES)

/-- Embedding of `self.rpr_context.objects.get(key, None)` over the scene-object
mapping, modelled as an association list. -/
def objects_get {M : Type} (om : List (String × RprObject M)) (key : String) :
    Option (RprObject M) :=
  (om.find? (fun kv => kv.1 = key)).map Prod.snd

/-- The first loop of `sync_motion_blur` over depsgraph objects
(engine.py lines 171-180): capture `cur_matrices[key] = obj.matrix_world`
for motion-blur objects whose renderer object exists with a supported
variant.  The accumulator is prepended so that a later dict write wins on
lookup. -/
def capture_objects {M : Type} (om : List (String × RprObject M))
    (acc : List (String × M)) : List (DepsObj M) → List (String × M)
  | [] => acc
  | o :: rest =>
    let acc' :=
      if ¬o.motion_blur then acc
      else
        match objects_get om o.key with
        | none => acc
        | some rpr_object =>
          if rpr_object.variant.isShapeAreaLightCamera then
            (o.key, o.matrix_world_cur) :: acc
          else acc
    capture_objects om acc' rest

/-- The second capture loop over depsgraph instances (engine.py lines
182-191). -/
def capture_instances {M : Type} (om : List (String × RprObject M))
    (acc : List (String × M)) : List (DepsInst M) → List (String × M)
  | [] => acc
  | i :: rest =>
    let acc' :=
      if ¬i.parent_motion_blur then acc
      else
        match objects_get om i.key with
        | none => acc
        | some rpr_object =>
          if rpr_object.variant.isShapeAreaLight then
            (i.key, i.matrix_world_cur) :: acc
          else acc
    capture_instances om acc' rest

/-- Both capture loops: the `cur_matrices` dict after engine.py line 191. -/
def cur_matrices {M : Type} (om : List (String × RprObject M))
    (dg : Depsgraph M) : List (String × M) :=
  capture_instances om (capture_objects om [] (depsgraph_objects dg))
    (depsgraph_instances dg)

/-- How the `try` body of `sync_motion_blur` can terminate abnormally. -/
inductive MBErr where
  /-- the indexing `self.rpr_context.objects[key]` raised `KeyError` -/
  | keyError
  /-- an injected exception from the per-entity motion computation -/
  | entityError
deriving DecidableEq

/-- The per-object half of the rewound-frame loop (engine.py lines
202-208): look up the captured matrix, index `rpr_context.objects[key]`
(raising `KeyError` when absent), and run `set_motion_blur` — which
`fails` may make raise.  Returns the renderer calls made before any
raise. -/
def motion_objects {M : Type} (ops : MathOps M)
    (om : List (String × RprObject M)) (cm : List (String × M))
    (fails : String → Bool) (acc : List (String × MotionCmd M)) :
    List (DepsObj M) → List (String × MotionCmd M) × Option MBErr
  | [] => (acc, none)
  | o :: rest =>
    match (cm.find? (fun kv => kv.1 = o.key)).map Prod.snd with
    | none => motion_objects ops om cm fails acc rest
    | some cur_matrix =>
      match objects_get om o.key with
      | none => (acc, some .keyError)
      | some rpr_object =>
        if fails o.key then (acc, some .entityError)
        else
          motion_objects ops om cm fails
            (acc ++ (set_motion_blur ops rpr_object o.matrix_world_prev
              cur_matrix).map (fun c => (o.key, c))) rest

/-- The per-instance half of the rewound-frame loop (engine.py lines
210-216). -/
def motion_instances {M : Type} (ops : MathOps M)
    (om : List (String × RprObject M)) (cm : List (String × M))
    (fails : String → Bool) (acc : List (String × MotionCmd M)) :
    List (DepsInst M) → List (String × MotionCmd M) × Option MBErr
  | [] => (acc, none)
  | i :: rest =>
    match (cm.find? (fun kv => kv.1 = i.key)).map Prod.snd with
    | none => motion_instances ops om cm fails acc rest
    | some cur_matrix =>
      match objects_get om i.key with
      | none => (acc, some .keyError)
      | some rpr_object =>
        if fails i.key then (acc, some .entityError)
        else
          motion_instances ops om cm fails
            (acc ++ (set_motion_blur ops rpr_object i.matrix_world_prev
              cur_matrix).map (fun c => (i.key, c))) rest

/-- The whole `try` body (engine.py lines 201-216). -/
def motion_body {M : Type} (ops : MathOps M)
    (om : List (String × RprObject M)) (cm : List (String × M))
    (fails : String → Bool) (dg : Depsgraph M) :
    List (String × MotionCmd M) × Option MBErr :=
  match motion_objects ops om cm fails [] (depsgraph_objects dg) with
  | (acc, none) => motion_instances ops om cm fails acc (depsgraph_instances dg)
  | r => r

/-- The observable outcome of `sync_motion_blur`: the arguments of the
`_set_scene_frame` calls in order, the renderer motion calls made, and the
propagated exception if any. -/
structure MBResult (M : Type) where
  frame_sets : List ℚ
  cmds : List (String × MotionCmd M)
  error : Option MBErr

/-- Embedding of `Engine.sync_motion_blur(depsgraph)` (engine.py lines
146-220): capture current matrices; if none, return at once; otherwise
rewind to `cur_frame - 1`, run the loops, and — by `finally` — restore
`cur_frame` whether or not the body raised. -/
def sync_motion_blur {M : Type} (ops : MathOps M)
    (om : List (String × RprObject M)) (fails : String → Bool)
    (dg : Depsgraph M) : MBResult M :=
  let cm := cur_matrices om dg
  if cm.isEmpty then ⟨[], [], none⟩
  else
    let cur_frame := dg.frame_current
    let prev_frame := cur_frame - 1
    let (cmds, err) := motion_body ops om cm fails dg
    ⟨[prev_frame, cur_frame], cmds, err⟩

/-- The globally-visible current frame after `sync_motion_blur`, starting
from the frame observed before the call. -/
def mb_final_frame {M : Type} (init : ℚ) (r : MBResult M) : ℚ :=
  r.frame_sets.getLast?.getD init

/-! ### Concrete instantiations used to evaluate the motion-blur model -/

/-- A concrete `mathutils` interpretation over trivial matrices whose
extracted quaternion has an axis of length 3. -/
def demoOpsLargeAxis : MathOps Unit where
  matSub _ _ := ()
  toTranslation _ := (0, 0, 0)
  matMul _ _ := ()
  inverted _ := ()
  toQuaternion _ := ⟨(0, 3, 0), 7⟩
  toScale _ := (1, 1, 1)
  vecLength v := v.2.1

/-- Like `demoOpsLargeAxis` but the extracted quaternion has a zero-length
axis. -/
def demoOpsShortAxis : MathOps Unit :=
  { demoOpsLargeAxis with
      toQuaternion := fun _ => ⟨(0, 0, 0), 7⟩
      vecLength := fun _ => 0 }

/-- A one-entry renderer-object mapping: a shape named `"Cube"` with the
direct motion-transform capability. -/
def demoObjectsMap : List (String × RprObject Unit) :=
  [("Cube", ⟨.shape, true⟩)]

/-- A depsgraph holding one motion-blur-enabled mesh at frame 10. -/
def demoDepsgraph : Depsgraph Unit :=
  ⟨[⟨"Cube", "MESH", true, (), ()⟩], [], 10⟩

/-- A depsgraph with no objects at all, at frame 10. -/
def demoDepsgraphEmpty : Depsgraph Unit :=
  ⟨[], [], 10⟩

/-! ## Claim theorems -/

/-- C5: `get_group_names` gives a root object (no parent) the group name
`"Root.{name}"` with parent group `"Root"`; a non-root object gets
`"{parent.name}.{name}"`, with parent group `"Root.{parent.name}"` when
the parent is a root and `"{grandparent.name}.{parent.name}"` otherwise;
in particular `"Leg"`/`"Body"`/`"Torso"` yields
`("Body.Leg", "Torso.Body")` and root `"Sun"` yields
`("Root.Sun", "Root")`. -/
theorem c5_get_group_names (obj : BObj) :
    (obj.parent = none → get_group_names obj = ("Root." ++ obj.name, "Root")) ∧
    (∀ p, obj.parent = some p → p.parent = none →
      get_group_names obj = (p.name ++ "." ++ obj.name, "Root." ++ p.name)) ∧
    (∀ p gp, obj.parent = some p → p.parent = some gp →
      get_group_names obj =
        (p.name ++ "." ++ obj.name, gp.name ++ "." ++ p.name)) ∧
    get_group_names
        (.mk "Leg" (some (.mk "Body" (some (.mk "Torso" none))))) =
      ("Body.Leg", "Torso.Body") ∧
    get_group_names (.mk "Sun" none) = ("Root.Sun", "Root") := by
  refine ⟨?_, ?_, ?_, rfl, rfl⟩
  · intro h
    cases obj with
    | mk n p => cases p <;> simp_all [get_group_names, BObj.parent, BObj.name]
  · intro p hp hpp
    cases obj with
    | mk n par =>
      cases par with
      | none => simp [BObj.parent] at hp
      | some q =>
        simp [BObj.parent] at hp
        subst hp
        cases q with
        | mk pn ppar =>
          simp [BObj.parent] at hpp
          subst hpp
          rfl
  · intro p gp hp hpp
    cases obj with
    | mk n par =>
      cases par with
      | none => simp [BObj.parent] at hp
      | some q =>
        simp [BObj.parent] at hp
        subst hp
        cases q with
        | mk pn ppar =>
          simp [BObj.parent] at hpp
          subst hpp
          rfl

/-- Witness for C5 at the spec's concrete objects. -/
theorem c5_witness :
    get_group_names
        (.mk "Leg" (some (.mk "Body" (some (.mk "Torso" none))))) =
      ("Body.Leg", "Torso.Body") ∧
    get_group_names (.mk "Sun" none) = ("Root.Sun", "Root") :=
  ⟨(c5_get_group_names (.mk "Leg" (some (.mk "Body" (some (.mk "Torso" none)))))).2.2.2.1,
    (c5_get_group_names (.mk "Sun" none)).1 rfl⟩

/-- Sum of the lengths of equal-arity tuples. -/
theorem sum_map_length_of_arity (d : Nat) :
    ∀ (l : List (List ℚ)), (∀ v ∈ l, v.length = d) →
      (l.map List.length).sum = l.length * d := by
  intro l
  induction l with
  | nil => intro _; simp
  | cons v rest ih =>
    intro h
    have hv : v.length = d := h v (by simp)
    have hrest := ih (fun w hw => h w (by simp [hw]))
    simp [hv, hrest, Nat.succ_mul, Nat.add_comm]

/-- C3: `Animation.__init__` on a category in {translation, rotation,
scale} with `N` keys and `N` value tuples of the category's arity packs a
struct with `nbTimeKeys = nbTransformValues = N`, `interpolationType = 0`
and `movementType ∈ {1,2,3}`; with mismatched key/value counts it raises
the count-mismatch assertion before packing anything. -/
theorem c3_animation_roundtrip (fps : ℚ) (group : String) (category : String)
    (n : Nat) (keys : List ℚ) (data : List (List ℚ))
    (hcat : category = "translation" ∨ category = "rotation" ∨ category = "scale")
    (hkeys : keys.length = n) (hdata : data.length = n)
    (harity : ∀ v ∈ data, v.length = (DATA_SIZE category).getD 0) :
    (∃ p, animationInit fps group category keys data = .ok p ∧
      p.nbTimeKeys = n ∧ p.nbTransformValues = n ∧ p.interpolationType = 0 ∧
      (p.movementType = 1 ∨ p.movementType = 2 ∨ p.movementType = 3)) ∧
    (∀ (keys2 : List ℚ) (data2 : List (List ℚ)),
      keys2.length ≠ data2.length →
      animationInit fps group category keys2 data2 = .error .countMismatch) := by
  constructor
  · have hkd : keys.length = data.length := hkeys.trans hdata.symm
    rcases hcat with h | h | h
    · subst h
      have hsum := sum_map_length_of_arity _ data harity
      simp only [DATA_SIZE, Option.getD_some] at hsum
      refine ⟨{ structSize := rprsAnimationSizeof, groupName := group,
                movementType := 1, interpolationType := 0,
                nbTimeKeys := keys.length, nbTransformValues := keys.length,
                timeKeys := keys.map (fun frame => frame / fps),
                transformValues := data.flatten },
        ?_, by simp [hkeys], by simp [hkeys], rfl, by simp⟩
      simp [animationInit, DATA_SIZE, MOVEMENT_CONSTANTS, hkd, hsum]
    · subst h
      have hsum := sum_map_length_of_arity _ data harity
      simp only [DATA_SIZE, Option.getD_some] at hsum
      refine ⟨{ structSize := rprsAnimationSizeof, groupName := group,
                movementType := 2, interpolationType := 0,
                nbTimeKeys := keys.length, nbTransformValues := keys.length,
                timeKeys := keys.map (fun frame => frame / fps),
                transformValues := data.flatten },
        ?_, by simp [hkeys], by simp [hkeys], rfl, by simp⟩
      simp [animationInit, DATA_SIZE, MOVEMENT_CONSTANTS, hkd, hsum]
    · subst h
      have hsum := sum_map_length_of_arity _ data harity
      simp only [DATA_SIZE, Option.getD_some] at hsum
      refine ⟨{ structSize := rprsAnimationSizeof, groupName := group,
                movementType := 3, interpolationType := 0,
                nbTimeKeys := keys.length, nbTransformValues := keys.length,
                timeKeys := keys.map (fun frame => frame / fps),
                transformValues := data.flatten },
        ?_, by simp [hkeys], by simp [hkeys], rfl, by simp⟩
      simp [animationInit, DATA_SIZE, MOVEMENT_CONSTANTS, hkd, hsum]
  · intro keys2 data2 hne
    simp [animationInit, hne]

/-- Witness for C3 at a concrete two-key translation track and a concrete
mismatched pair. -/
theorem c3_witness :
    (∃ p, animationInit 24 "Root.Cube" "translation"
        [(1 : ℚ), 2] [[0, 0, 0], [0, 1, 0]] = .ok p ∧
      p.nbTimeKeys = 2 ∧ p.nbTransformValues = 2 ∧ p.interpolationType = 0 ∧
      (p.movementType = 1 ∨ p.movementType = 2 ∨ p.movementType = 3)) ∧
    animationInit 24 "Root.Cube" "translation" [(1 : ℚ)] [] =
      .error .countMismatch := by
  have h := c3_animation_roundtrip 24 "Root.Cube" "translation" 2
    [(1 : ℚ), 2] [[0, 0, 0], [0, 1, 0]] (by simp) (by simp) (by simp)
    (by intro v hv; fin_cases hv <;> simp [DATA_SIZE])
  exact ⟨h.1, h.2 [(1 : ℚ)] [] (by simp)⟩

/-- C4: `setup_image_filter` returns `False` and leaves the state untouched
when the spec equals the stored settings; on an enabled filter, a new spec
with the same resolution and non-ML filter type is applied in place on the
same instance (same identity) and returns `True`; a spec changing
resolution or filter type replaces the filter with a freshly created
instance holding the new spec. -/
theorem c4_setup_image_filter (e : FilterState) (f : FilterHandle)
    (s : FilterSettings) (hf : e.image_filter = some f) (hwf : e.WF) :
    (f.settings = s → setup_image_filter e s = (e, false)) ∧
    (f.settings ≠ s → s.enable = true →
      f.settings.resolution = s.resolution →
      f.settings.filter_type = s.filter_type →
      f.settings.filter_type ≠ "ML" →
      (setup_image_filter e s).1.image_filter = some ⟨f.iid, s⟩ ∧
      (setup_image_filter e s).2 = true) ∧
    (s.enable = true →
      (f.settings.resolution ≠ s.resolution ∨
        f.settings.filter_type ≠ s.filter_type) →
      ∃ g, (setup_image_filter e s).1.image_filter = some g ∧
        g.settings = s ∧ g.iid ≠ f.iid ∧ (setup_image_filter e s).2 = true) := by
  refine ⟨?_, ?_, ?_⟩
  · intro hs
    simp [setup_image_filter, hf, hs]
  · intro hne hen hres htyp hml
    have hml2 : s.filter_type ≠ "ML" := htyp ▸ hml
    simp [setup_image_filter, hf, hne, hen, hres, htyp, hml, hml2,
      update_image_filter]
  · intro hen hchange
    have hne : f.settings ≠ s := by
      intro heq
      rcases hchange with h | h <;> exact h (by rw [heq])
    have hguard : ¬(f.settings.resolution = s.resolution ∧
        f.settings.filter_type = s.filter_type ∧
        f.settings.filter_type ≠ "ML") := by
      rintro ⟨h1, h2, -⟩
      rcases hchange with h | h <;> [exact h h1; exact h h2]
    refine ⟨⟨e.nextId, s⟩, ?_, rfl, ?_, ?_⟩
    · simp [setup_image_filter, hf, hne, hen, hguard, enable_image_filter,
        disable_image_filter]
    · exact fun h => Nat.lt_irrefl _ (h ▸ hwf f hf)
    · simp [setup_image_filter, hf, hne, hen, hguard]

/-- Witness for C4: the spec's bilateral example — radius-only change
updates in place, resolution change recreates, identical spec is a
no-op. -/
theorem c4_witness :
    (setup_image_filter
        ⟨some ⟨0, ⟨true, "BILATERAL", (100, 100), [("radius", 1)]⟩⟩, 1⟩
        ⟨true, "BILATERAL", (100, 100), [("radius", 1)]⟩ =
      (⟨some ⟨0, ⟨true, "BILATERAL", (100, 100), [("radius", 1)]⟩⟩, 1⟩, false)) ∧
    ((setup_image_filter
        ⟨some ⟨0, ⟨true, "BILATERAL", (100, 100), [("radius", 1)]⟩⟩, 1⟩
        ⟨true, "BILATERAL", (100, 100), [("radius", 2)]⟩).1.image_filter =
      some ⟨0, ⟨true, "BILATERAL", (100, 100), [("radius", 2)]⟩⟩) ∧
    (∃ g, (setup_image_filter
        ⟨some ⟨0, ⟨true, "BILATERAL", (100, 100), [("radius", 1)]⟩⟩, 1⟩
        ⟨true, "BILATERAL", (200, 200), [("radius", 2)]⟩).1.image_filter =
          some g ∧
      g.settings = ⟨true, "BILATERAL", (200, 200), [("radius", 2)]⟩ ∧
      g.iid ≠ 0 ∧
      (setup_image_filter
        ⟨some ⟨0, ⟨true, "BILATERAL", (100, 100), [("radius", 1)]⟩⟩, 1⟩
        ⟨true, "BILATERAL", (200, 200), [("radius", 2)]⟩).2 = true) := by
  have hwf : FilterState.WF
      ⟨some ⟨0, ⟨true, "BILATERAL", (100, 100), [("radius", 1)]⟩⟩, 1⟩ := by
    intro g hg
    injection hg with hg
    rw [← hg]
    decide
  refine ⟨?_, ?_, ?_⟩
  · exact (c4_setup_image_filter _ ⟨0, ⟨true, "BILATERAL", (100, 100), [("radius", 1)]⟩⟩
      ⟨true, "BILATERAL", (100, 100), [("radius", 1)]⟩ rfl hwf).1 rfl
  · exact ((c4_setup_image_filter _ ⟨0, ⟨true, "BILATERAL", (100, 100), [("radius", 1)]⟩⟩
      ⟨true, "BILATERAL", (100, 100), [("radius", 2)]⟩ rfl hwf).2.1
      (by decide) rfl rfl rfl (by decide)).1
  · exact (c4_setup_image_filter _ ⟨0, ⟨true, "BILATERAL", (100, 100), [("radius", 1)]⟩⟩
      ⟨true, "BILATERAL", (200, 200), [("radius", 2)]⟩ rfl hwf).2.2 rfl
      (Or.inl (by decide))

/-- C8: in `_set_render_result`'s Combined branch, with a denoise filter
applied and no background filter, the output's alpha channel (index 3) is
the raw render's alpha and every other channel is the denoised data; with
neither filter active, the output is the raw buffer unchanged. -/
theorem c8_combined_composition (bufs : RenderBuffers) (d : Image)
    (x y c : Nat) :
    (c = 3 →
      combined_render_result bufs true (some d) none x y c = bufs.raw x y 3) ∧
    (c ≠ 3 →
      combined_render_result bufs true (some d) none x y c = d x y c) ∧
    (∀ (apply_image_filter : Bool) (image_filter_data : Option Image),
      (apply_image_filter = false ∨ image_filter_data = none) →
      combined_render_result bufs apply_image_filter image_filter_data none =
        bufs.raw) := by
  refine ⟨?_, ?_, ?_⟩
  · intro h
    simp [combined_render_result, h]
  · intro h
    simp [combined_render_result, h]
  · rintro af ifd (h | h)
    · subst h
      cases ifd <;> rfl
    · subst h
      cases af <;> rfl

/-- Witness for C8 on small constant images. -/
theorem c8_witness :
    (combined_render_result
      ⟨fun _ _ _ => 5, fun _ _ _ => 6, fun _ _ _ => 6⟩ true
      (some (fun _ _ _ => 7)) none 0 0 3 = 5) ∧
    (combined_render_result
      ⟨fun _ _ _ => 5, fun _ _ _ => 6, fun _ _ _ => 6⟩ true
      (some (fun _ _ _ => 7)) none 0 0 0 = 7) ∧
    (combined_render_result
      ⟨fun _ _ _ => 5, fun _ _ _ => 6, fun _ _ _ => 6⟩ false none none =
      fun _ _ _ => 5) := by
  refine ⟨?_, ?_, ?_⟩
  · exact (c8_combined_composition
      ⟨fun _ _ _ => 5, fun _ _ _ => 6, fun _ _ _ => 6⟩ (fun _ _ _ => 7)
      0 0 3).1 rfl
  · exact (c8_combined_composition
      ⟨fun _ _ _ => 5, fun _ _ _ => 6, fun _ _ _ => 6⟩ (fun _ _ _ => 7)
      0 0 0).2.1 (by decide)
  · exact (c8_combined_composition
      ⟨fun _ _ _ => 5, fun _ _ _ => 6, fun _ _ _ => 6⟩ (fun _ _ _ => 7)
      0 0 0).2.2 false none (Or.inl rfl)

/-- C2: the animation-data collection as invoked by
`ExportEngineAnimated.sync` — `collect_animation_data_by_keyframes` inside
`try/finally: scene.frame_set(orig_frame)` — leaves the globally-visible
current frame equal to the original frame, whether the body returned
normally or raised partway through the iteration (for every injected
failure pattern), and a raised exception still propagates. -/
theorem c2_animation_frame_restored (fails : String → ℚ → Bool)
    (orig_frame : ℚ) (keyframes : List (String × List ℚ)) :
    final_frame orig_frame (sync_collect_animation fails orig_frame keyframes) =
      orig_frame ∧
    (sync_collect_animation fails orig_frame keyframes).raised =
      (collect_animation_data_frames fails orig_frame keyframes).raised := by
  refine ⟨?_, rfl⟩
  simp [final_frame, sync_collect_animation]

/-- C1: whenever at least one entity was captured for motion blur,
`sync_motion_blur`'s frame mutations are exactly a rewind to
`frame_current - 1` followed — via the `finally` — by a restore of
`frame_current`, for every injected per-entity failure pattern; so the
globally-visible current frame after the call equals the frame observed
before it. -/
theorem c1_motion_blur_frame_restored {M : Type} (ops : MathOps M)
    (om : List (String × RprObject M)) (fails : String → Bool)
    (dg : Depsgraph M) (h : cur_matrices om dg ≠ []) :
    (sync_motion_blur ops om fails dg).frame_sets =
      [dg.frame_current - 1, dg.frame_current] ∧
    mb_final_frame dg.frame_current (sync_motion_blur ops om fails dg) =
      dg.frame_current := by
  have hne : (cur_matrices om dg).isEmpty = false := by
    simpa [List.isEmpty_iff] using h
  constructor <;> simp [sync_motion_blur, mb_final_frame, hne]

/-- Witness for C1: one captured shape at frame 10, with the per-entity
computation failing, still rewinds to 9 and restores 10. -/
theorem c1_witness :
    (sync_motion_blur demoOpsLargeAxis demoObjectsMap (fun _ => true)
      demoDepsgraph).frame_sets = [9, 10] ∧
    mb_final_frame 10 (sync_motion_blur demoOpsLargeAxis demoObjectsMap
      (fun _ => true) demoDepsgraph) = 10 := by
  have h := c1_motion_blur_frame_restored demoOpsLargeAxis demoObjectsMap
    (fun _ => true) demoDepsgraph (by decide)
  refine ⟨?_, h.2⟩
  rw [h.1]
  norm_num [demoDepsgraph]

/-- C9: when no entity was captured for motion blur, `sync_motion_blur`
returns without any `_set_scene_frame` call, renderer motion call or
error: the current frame is untouched. -/
theorem c9_motion_blur_noop {M : Type} (ops : MathOps M)
    (om : List (String × RprObject M)) (fails : String → Bool)
    (dg : Depsgraph M) (h : cur_matrices om dg = []) :
    sync_motion_blur ops om fails dg = ⟨[], [], none⟩ ∧
    mb_final_frame dg.frame_current (sync_motion_blur ops om fails dg) =
      dg.frame_current := by
  have hne : (cur_matrices om dg).isEmpty = true := by
    simp [List.isEmpty_iff, h]
  constructor <;> simp [sync_motion_blur, mb_final_frame, hne]

/-- Witness for C9 on an empty depsgraph. -/
theorem c9_witness :
    sync_motion_blur demoOpsLargeAxis demoObjectsMap (fun _ => false)
      demoDepsgraphEmpty = ⟨[], [], none⟩ :=
  (c9_motion_blur_noop demoOpsLargeAxis demoObjectsMap (fun _ => false)
    demoDepsgraphEmpty (by decide)).1

/-- C7: for a renderer object without the direct motion-transform
capability, the `set_angular_motion` call of `set_motion_blur` carries the
axis and angle of the quaternion of `prev_matrix @ cur_matrix.inverted()`
when that axis is longer than 0.5, and the fixed value `(1, 0, 0, 0)`
when the axis length is at most 0.5. -/
theorem c7_degenerate_rotation {M : Type} (ops : MathOps M)
    (rpr_object : RprObject M) (prev_matrix cur_matrix : M)
    (h : rpr_object.has_motion_transform = false) :
    angular_setting (set_motion_blur ops rpr_object prev_matrix cur_matrix) =
      some
        (if ops.vecLength
            (ops.toQuaternion (ops.matMul prev_matrix
              (ops.inverted cur_matrix))).axis > 1/2 then
          ((ops.toQuaternion (ops.matMul prev_matrix
              (ops.inverted cur_matrix))).axis.1,
           (ops.toQuaternion (ops.matMul prev_matrix
              (ops.inverted cur_matrix))).axis.2.1,
           (ops.toQuaternion (ops.matMul prev_matrix
              (ops.inverted cur_matrix))).axis.2.2,
           (ops.toQuaternion (ops.matMul prev_matrix
              (ops.inverted cur_matrix))).angle)
        else (1, 0, 0, 0)) := by
  simp only [set_motion_blur, h, Bool.false_eq_true, if_false]
  split_ifs with hq <;> simp [angular_setting]

/-- Witness for C7: a long-axis quaternion keeps its axis/angle, a
zero-length axis falls back to `(1, 0, 0, 0)`. -/
theorem c7_witness :
    angular_setting (set_motion_blur demoOpsLargeAxis ⟨.shape, false⟩ () ()) =
      some (0, 3, 0, 7) ∧
    angular_setting (set_motion_blur demoOpsShortAxis ⟨.shape, false⟩ () ()) =
      some (1, 0, 0, 0) := by
  constructor
  · rw [c7_degenerate_rotation demoOpsLargeAxis ⟨.shape, false⟩ () () rfl]
    norm_num [demoOpsLargeAxis]
  · rw [c7_degenerate_rotation demoOpsShortAxis ⟨.shape, false⟩ () () rfl]
    norm_num [demoOpsShortAxis, demoOpsLargeAxis]

/-- Every entry the object-capture loop adds to `cur_matrices` has a
renderer object in the mapping. -/
theorem capture_objects_mem {M : Type} (om : List (String × RprObject M)) :
    ∀ (l : List (DepsObj M)) (acc : List (String × M)) (kv : String × M),
      kv ∈ capture_objects om acc l →
      kv ∈ acc ∨ (objects_get om kv.1).isSome := by
  intro l
  induction l with
  | nil =>
    intro acc kv h
    exact Or.inl h
  | cons o rest ih =>
    intro acc kv h
    rw [capture_objects] at h
    by_cases hmb : o.motion_blur
    · simp only [hmb, not_true, if_false] at h
      cases hog : objects_get om o.key with
      | none =>
        rw [hog] at h
        exact ih _ kv h
      | some rpr_object =>
        rw [hog] at h
        by_cases hv : rpr_object.variant.isShapeAreaLightCamera
        · simp only [hv, if_true] at h
          rcases ih _ kv h with h' | h'
          · rcases List.mem_cons.mp h' with h'' | h''
            · subst h''
              exact Or.inr (by simp [hog])
            · exact Or.inl h''
          · exact Or.inr h'
        · simp only [hv, if_false] at h
          exact ih _ kv h
    · simp only [hmb, not_false_iff, if_true] at h
      exact ih _ kv h

/-- Every entry the instance-capture loop adds to `cur_matrices` has a
renderer object in the mapping. -/
theorem capture_instances_mem {M : Type} (om : List (String × RprObject M)) :
    ∀ (l : List (DepsInst M)) (acc : List (String × M)) (kv : String × M),
      kv ∈ capture_instances om acc l →
      kv ∈ acc ∨ (objects_get om kv.1).isSome := by
  intro l
  induction l with
  | nil =>
    intro acc kv h
    exact Or.inl h
  | cons i rest ih =>
    intro acc kv h
    rw [capture_instances] at h
    by_cases hmb : i.parent_motion_blur
    · simp only [hmb, not_true, if_false] at h
      cases hog : objects_get om i.key with
      | none =>
        rw [hog] at h
        exact ih _ kv h
      | some rpr_object =>
        rw [hog] at h
        by_cases hv : rpr_object.variant.isShapeAreaLight
        · simp only [hv, if_true] at h
          rcases ih _ kv h with h' | h'
          · rcases List.mem_cons.mp h' with h'' | h''
            · subst h''
              exact Or.inr (by simp [hog])
            · exact Or.inl h''
          · exact Or.inr h'
        · simp only [hv, if_false] at h
          exact ih _ kv h
    · simp only [hmb, not_false_iff, if_true] at h
      exact ih _ kv h

/-- Every key captured into `cur_matrices` has a renderer object in the
(unchanged) mapping. -/
theorem cur_matrices_mem {M : Type} (om : List (String × RprObject M))
    (dg : Depsgraph M) (kv : String × M) (h : kv ∈ cur_matrices om dg) :
    (objects_get om kv.1).isSome := by
  rcases capture_instances_mem om _ _ kv h with h' | h'
  · rcases capture_objects_mem om _ _ kv h' with h'' | h''
    · simp at h''
    · exact h''
  · exact h'

/-- If every captured key has a renderer object, the object loop of the
rewound-frame phase never raises `KeyError`. -/
theorem motion_objects_no_keyError {M : Type} (ops : MathOps M)
    (om : List (String × RprObject M)) (cm : List (String × M))
    (hcm : ∀ kv ∈ cm, (objects_get om kv.1).isSome) (fails : String → Bool) :
    ∀ (l : List (DepsObj M)) (acc : List (String × MotionCmd M)),
      (motion_objects ops om cm fails acc l).2 ≠ some .keyError := by
  intro l
  induction l with
  | nil =>
    intro acc
    simp [motion_objects]
  | cons o rest ih =>
    intro acc
    rw [motion_objects]
    cases hfind : (cm.find? (fun kv => kv.1 = o.key)).map Prod.snd with
    | none =>
      exact ih _
    | some cur_matrix =>
      obtain ⟨kv0, hkv0, -⟩ := Option.map_eq_some'.mp hfind
      have hmem : kv0 ∈ cm := List.mem_of_find?_eq_some hkv0
      have hkey : kv0.1 = o.key := by
        simpa using List.find?_some hkv0
      have hsome := hcm kv0 hmem
      rw [hkey] at hsome
      cases hog : objects_get om o.key with
      | none =>
        rw [hog] at hsome
        simp at hsome
      | some rpr_object =>
        by_cases hf : fails o.key
        · simp [hf]
        · simp only [hf, if_false]
          exact ih _

/-- If every captured key has a renderer object, the instance loop of the
rewound-frame phase never raises `KeyError`. -/
theorem motion_instances_no_keyError {M : Type} (ops : MathOps M)
    (om : List (String × RprObject M)) (cm : List (String × M))
    (hcm : ∀ kv ∈ cm, (objects_get om kv.1).isSome) (fails : String → Bool) :
    ∀ (l : List (DepsInst M)) (acc : List (String × MotionCmd M)),
      (motion_instances ops om cm fails acc l).2 ≠ some .keyError := by
  intro l
  induction l with
  | nil =>
    intro acc
    simp [motion_instances]
  | cons i rest ih =>
    intro acc
    rw [motion_instances]
    cases hfind : (cm.find? (fun kv => kv.1 = i.key)).map Prod.snd with
    | none =>
      exact ih _
    | some cur_matrix =>
      obtain ⟨kv0, hkv0, -⟩ := Option.map_eq_some'.mp hfind
      have hmem : kv0 ∈ cm := List.mem_of_find?_eq_some hkv0
      have hkey : kv0.1 = i.key := by
        simpa using List.find?_some hkv0
      have hsome := hcm kv0 hmem
      rw [hkey] at hsome
      cases hog : objects_get om i.key with
      | none =>
        rw [hog] at hsome
        simp at hsome
      | some rpr_object =>
        by_cases hf : fails i.key
        · simp [hf]
        · simp only [hf, if_false]
          exact ih _

/-- The whole rewound-frame `try` body never raises `KeyError` when every
captured key has a renderer object. -/
theorem motion_body_no_keyError {M : Type} (ops : MathOps M)
    (om : List (String × RprObject M)) (cm : List (String × M))
    (hcm : ∀ kv ∈ cm, (objects_get om kv.1).isSome) (fails : String → Bool)
    (dg : Depsgraph M) :
    (motion_body ops om cm fails dg).2 ≠ some .keyError := by
  rw [motion_body]
  cases hmo : motion_objects ops om cm fails [] (depsgraph_objects dg) with
  | mk acc err =>
    cases err with
    | none =>
      exact motion_instances_no_keyError ops om cm hcm fails _ _
    | some e =>
      have := motion_objects_no_keyError ops om cm hcm fails
        (depsgraph_objects dg) []
      rw [hmo] at this
      simpa using this

/-- C10: the dictionary indexings `rpr_context.objects[key]` of the
rewound-frame phase of `sync_motion_blur` can never raise: every captured
key was verified against the unchanged mapping during capture, so the
whole call never produces a `KeyError`, for every depsgraph, mapping and
failure pattern. -/
theorem c10_lookup_never_fails {M : Type} (ops : MathOps M)
    (om : List (String × RprObject M)) (fails : String → Bool)
    (dg : Depsgraph M) :
    (sync_motion_blur ops om fails dg).error ≠ some .keyError := by
  rw [sync_motion_blur]
  by_cases hcm : (cur_matrices om dg).isEmpty
  · simp [hcm]
  · have hmem : ∀ kv ∈ cur_matrices om dg, (objects_get om kv.1).isSome :=
      fun kv hkv => cur_matrices_mem om dg kv hkv
    have hbody := motion_body_no_keyError ops om (cur_matrices om dg) hmem fails dg
    cases hmb : motion_body ops om (cur_matrices om dg) fails dg with
    | mk cmds err =>
      rw [hmb] at hbody
      simp only [hcm, if_false, hmb]
      simpa using hbody

/-- Members of `insertSorted x l` come from `x` or from `l`. -/
theorem mem_insertSorted (x : ℚ) :
    ∀ (l : List ℚ) (t : ℚ), t ∈ insertSorted x l → t = x ∨ t ∈ l := by
  intro l
  induction l with
  | nil =>
    intro t h
    simp [insertSorted] at h
    exact Or.inl h
  | cons y ys ih =>
    intro t h
    rw [insertSorted] at h
    by_cases h1 : x < y
    · rw [if_pos h1] at h
      rcases List.mem_cons.mp h with h' | h'
      · exact Or.inl h'
      · exact Or.inr h'
    · rw [if_neg h1] at h
      by_cases h2 : x = y
      · rw [if_pos h2] at h
        exact Or.inr h
      · rw [if_neg h2] at h
        rcases List.mem_cons.mp h with h' | h'
        · exact Or.inr (h' ▸ List.mem_cons_self y ys)
        · rcases ih t h' with h'' | h''
          · exact Or.inl h''
          · exact Or.inr (List.mem_cons_of_mem y h'')

/-- Inserting with `insertSorted` preserves strict sortedness. -/
theorem insertSorted_pairwise (x : ℚ) :
    ∀ (l : List ℚ), l.Pairwise (· < ·) → (insertSorted x l).Pairwise (· < ·) := by
  intro l
  induction l with
  | nil =>
    intro _
    simp [insertSorted]
  | cons y ys ih =>
    intro hp
    rw [insertSorted]
    rcases List.pairwise_cons.mp hp with ⟨hy, hys⟩
    by_cases h1 : x < y
    · rw [if_pos h1]
      exact List.pairwise_cons.mpr
        ⟨fun z hz => lt_of_lt_of_le h1 (by
          rcases List.mem_cons.mp hz with h' | h'
          · exact h'.symm.le
          · exact (hy z h').le), hp⟩
    · rw [if_neg h1]
      by_cases h2 : x = y
      · rw [if_pos h2]
        exact hp
      · rw [if_neg h2]
        have hyx : y < x :=
          lt_of_le_of_ne (le_of_not_lt h1) (Ne.symm h2)
        exact List.pairwise_cons.mpr
          ⟨fun z hz => by
            rcases mem_insertSorted x ys z hz with h' | h'
            · exact h' ▸ hyx
            · exact hy z h', ih hys⟩

/-- The fold underlying `sortedDedup` keeps strict sortedness. -/
theorem sortedDedup_fold_pairwise :
    ∀ (l acc : List ℚ), acc.Pairwise (· < ·) →
      (l.foldl (fun a t => insertSorted t a) acc).Pairwise (· < ·) := by
  intro l
  induction l with
  | nil =>
    intro acc h
    exact h
  | cons x xs ih =>
    intro acc h
    exact ih _ (insertSorted_pairwise x acc h)

/-- Members of the fold underlying `sortedDedup` come from the accumulator
or the input. -/
theorem sortedDedup_fold_mem :
    ∀ (l acc : List ℚ) (t : ℚ),
      t ∈ l.foldl (fun a t => insertSorted t a) acc → t ∈ acc ∨ t ∈ l := by
  intro l
  induction l with
  | nil =>
    intro acc t h
    exact Or.inl h
  | cons x xs ih =>
    intro acc t h
    rcases ih _ t h with h' | h'
    · rcases mem_insertSorted x acc t h' with h'' | h''
      · exact Or.inr (h'' ▸ List.mem_cons_self x xs)
      · exact Or.inl h''
    · exact Or.inr (List.mem_cons_of_mem x h')

/-- The `sortedDedup` output is strictly increasing. -/
theorem sortedDedup_pairwise (l : List ℚ) :
    (sortedDedup l).Pairwise (· < ·) :=
  sortedDedup_fold_pairwise l [] (List.Pairwise.nil)

/-- The `sortedDedup` output members come from the input. -/
theorem sortedDedup_mem (l : List ℚ) (t : ℚ) (h : t ∈ sortedDedup l) :
    t ∈ l := by
  rcases sortedDedup_fold_mem l [] t h with h' | h'
  · simp at h'
  · exact h'

/-- Every clamped key time of one object is the clamp of some raw time. -/
theorem object_key_times_mem (s e : ℚ) (action : BAction) (t : ℚ)
    (h : t ∈ object_key_times s e action) :
    ∃ k, t = clamp_key_time s e k := by
  simp only [object_key_times, List.mem_flatten, List.mem_map] at h
  obtain ⟨l, ⟨curve, -, hl⟩, ht⟩ := h
  subst hl
  obtain ⟨k, -, hk⟩ := List.mem_map.mp ht
  exact ⟨k, hk.symm⟩

/-- Clamping lands in `[s, e]` when `s ≤ e`. -/
theorem clamp_key_time_bounds (s e t : ℚ) (hse : s ≤ e) :
    s ≤ clamp_key_time s e t ∧ clamp_key_time s e t ≤ e := by
  constructor
  · exact le_min hse (le_max_left s t)
  · exact min_le_left e _

/-- C6: every entry of `collect_keyframes` comes from an object that has
animation data with an action; with the scene's unique object names, an
object without animation contributes no entry; and each entry's keyframe
list is strictly increasing (hence duplicate-free) with every time inside
`[frame_start, frame_end]` whenever the range is non-degenerate. -/
theorem c6_collect_keyframes (scene : KFScene)
    (hrange : scene.frame_start ≤ scene.frame_end)
    (hnames : (scene.objects.map SceneObj.name).Nodup) :
    (∀ nk ∈ collect_keyframes scene, ∃ obj ∈ scene.objects,
      obj.name = nk.1 ∧
      ∃ ad, obj.animation_data = some ad ∧ ad.action.isSome) ∧
    (∀ obj ∈ scene.objects,
      (obj.animation_data = none ∨
        ∃ ad, obj.animation_data = some ad ∧ ad.action = none) →
      ∀ nk ∈ collect_keyframes scene, nk.1 ≠ obj.name) ∧
    (∀ nk ∈ collect_keyframes scene, nk.2.Pairwise (· < ·)) ∧
    (∀ nk ∈ collect_keyframes scene, ∀ t ∈ nk.2,
      scene.frame_start ≤ t ∧ t ≤ scene.frame_end) := by
  have hsrc : ∀ nk ∈ collect_keyframes scene, ∃ obj ∈ scene.objects,
      obj.name = nk.1 ∧
      ∃ ad, obj.animation_data = some ad ∧ ∃ action, ad.action = some action ∧
        nk.2 = sortedDedup
          (object_key_times scene.frame_start scene.frame_end action) := by
    intro nk hnk
    simp only [collect_keyframes, List.mem_filterMap] at hnk
    obtain ⟨obj, hobj, hmk⟩ := hnk
    cases had : obj.animation_data with
    | none => simp [had] at hmk
    | some ad =>
      cases hac : ad.action with
      | none => simp [had, hac] at hmk
      | some action =>
        simp only [had, hac, Option.some.injEq] at hmk
        exact ⟨obj, hobj, by rw [← hmk], ad, had,
          action, hac, by rw [← hmk]⟩
  refine ⟨?_, ?_, ?_, ?_⟩
  · intro nk hnk
    obtain ⟨obj, hobj, hname, ad, had, action, hac, -⟩ := hsrc nk hnk
    exact ⟨obj, hobj, hname, ad, had, by simp [hac]⟩
  · intro obj hobj hno nk hnk
    obtain ⟨obj', hobj', hname, ad, had, action, hac, -⟩ := hsrc nk hnk
    intro heq
    have hsame : obj' = obj :=
      List.inj_on_of_nodup_map hnames hobj' hobj (hname.trans heq)
    subst hsame
    rcases hno with h | ⟨ad2, had2, hac2⟩
    · rw [h] at had
      exact Option.noConfusion had
    · rw [had2] at had
      injection had with h2
      subst h2
      rw [hac2] at hac
      exact Option.noConfusion hac
  · intro nk hnk
    obtain ⟨obj', hobj', hname, ad, had, action, hac, hks⟩ := hsrc nk hnk
    rw [hks]
    exact sortedDedup_pairwise _
  · intro nk hnk t ht
    obtain ⟨obj', hobj', hname, ad, had, action, hac, hks⟩ := hsrc nk hnk
    rw [hks] at ht
    obtain ⟨k, hk⟩ := object_key_times_mem _ _ action t (sortedDedup_mem _ t ht)
    rw [hk]
    exact clamp_key_time_bounds _ _ k hrange

/-- Witness for C6: a two-object scene where the animated cube's times are
clamped into `[1, 10]`, sorted and deduplicated, and the unanimated lamp
is absent. -/
theorem c6_witness :
    (∀ nk ∈ collect_keyframes
      ⟨1, 10, [⟨"Cube", some ⟨some ⟨[⟨[12, 3]⟩, ⟨[3, 0]⟩]⟩⟩⟩,
               ⟨"Lamp", none⟩]⟩, nk.1 ≠ "Lamp") ∧
    (∀ nk ∈ collect_keyframes
      ⟨1, 10, [⟨"Cube", some ⟨some ⟨[⟨[12, 3]⟩, ⟨[3, 0]⟩]⟩⟩⟩,
               ⟨"Lamp", none⟩]⟩, ∀ t ∈ nk.2, (1 : ℚ) ≤ t ∧ t ≤ 10) := by
  have h := c6_collect_keyframes
    ⟨1, 10, [⟨"Cube", some ⟨some ⟨[⟨[12, 3]⟩, ⟨[3, 0]⟩]⟩⟩⟩, ⟨"Lamp", none⟩]⟩
    (by norm_num) (by simp)
  refine ⟨?_, h.2.2.2⟩
  intro nk hnk
  exact h.2.1 ⟨"Lamp", none⟩ (by simp) (Or.inl rfl) nk hnk

end RPRB
